import Mathlib

/-!
Verification of the webcam snapshot capture controller
(`src/components/SnapShotCapture.tsx` and the integrated variant with the
Amplify `FileUploader`).

The controller is a React component; we embed it as an explicit state
machine. React state variables (`stream`, `isCameraActive`, `message`,
`error`) become fields of `CState`; media streams are identified by fresh
natural-number ids handed out by the modelled `getUserMedia`. Ghost fields
(`created`, `stored`, `stops`, `downloads`) log which streams were ever
created by the platform, which were stored via `setStream`, every
"stop all tracks" event, and every triggered download, so that resource
lifecycle properties can be stated.

Platform outcomes that the code branches on (permission grant, presence of
the video/canvas refs, `play()` succeeding, the video's natural dimensions,
2D-context availability, the current instant) are inputs to each operation,
mirroring the `try`/`catch` and `if` structure of the source.
-/

/-- A calendar instant, the argument of the modelled `Date.toISOString`. -/
structure DateTime where
  year : Nat
  month : Nat
  day : Nat
  hour : Nat
  minute : Nat
  second : Nat
  ms : Nat
  deriving DecidableEq, Repr

/-- The decimal digit character for `n % 10`. -/
def digitChar (n : Nat) : Char :=
  List.getD ['0', '1', '2', '3', '4', '5', '6', '7', '8', '9'] (n % 10) '0'

/-- Two-digit zero-padded decimal rendering (`MM`, `DD`, `HH`, ...). -/
def pad2 (n : Nat) : List Char := [digitChar (n / 10), digitChar n]

/-- Three-digit zero-padded decimal rendering (milliseconds). -/
def pad3 (n : Nat) : List Char := [digitChar (n / 100), digitChar (n / 10), digitChar n]

/-- Four-digit zero-padded decimal rendering (the year). -/
def pad4 (n : Nat) : List Char :=
  [digitChar (n / 1000), digitChar (n / 100), digitChar (n / 10), digitChar n]

/-- Model of `Date.prototype.toISOString`: the format
`YYYY-MM-DDTHH:MM:SS.mmmZ`. -/
def toISOString (t : DateTime) : String :=
  ⟨pad4 t.year ++ '-' :: pad2 t.month ++ '-' :: pad2 t.day ++
   'T' :: pad2 t.hour ++ ':' :: pad2 t.minute ++ ':' :: pad2 t.second ++
   '.' :: pad3 t.ms ++ ['Z']⟩

/-- Model of `String.prototype.slice(a, b)` for `a ≤ b` on ASCII content. -/
def jsSlice (s : String) (a b : Nat) : String :=
  ⟨((s.data.drop a).take (b - a))⟩

/-- Replace the first occurrence of `a` by `b`, as JS `replace('a','b')`
with a string pattern does. -/
def replaceFirst (a b : Char) : List Char → List Char
  | [] => []
  | x :: xs => if x = a then b :: xs else x :: replaceFirst a b xs

/-- Replace every occurrence of `a` by `b`, as JS `replace(/a/g,'b')` does. -/
def replaceAll (a b : Char) (l : List Char) : List Char :=
  l.map fun x => if x = a then b else x

/-- The filename built by `downloadImage` in `SnapShotCapture.tsx`:
`snapshot-` + `toISOString().slice(0, 10)` + `.jpg`. -/
def downloadFilename (t : DateTime) : String :=
  "snapshot-" ++ jsSlice (toISOString t) 0 10 ++ ".jpg"

/-- The filename built by `downloadImage` in the integrated variant:
`snapshot-` + `toISOString().slice(0, 19).replace('T','_').replace(/:/g,'-')`
+ `.jpg`. -/
def downloadFilenameIntegrated (t : DateTime) : String :=
  "snapshot-" ++
    (⟨replaceAll ':' '-' (replaceFirst 'T' '_' (jsSlice (toISOString t) 0 19).data)⟩ : String) ++
    ".jpg"

/-- Controller state: the React state variables of the component plus ghost
logs for lifecycle reasoning. `canvasW`/`canvasH` model the hidden canvas
element's size (HTML default 300×150); `videoSrc` models
`videoRef.current.srcObject`. -/
structure CState where
  stream : Option Nat
  isCameraActive : Bool
  message : String
  error : Option String
  videoSrc : Option Nat
  canvasW : Nat
  canvasH : Nat
  /-- next fresh stream id the platform will hand out -/
  nextId : Nat
  /-- ghost: ids of every stream `getUserMedia` ever produced -/
  created : List Nat
  /-- ghost: ids of every stream stored via `setStream(newStream)` -/
  stored : List Nat
  /-- ghost: one entry per `getTracks().forEach(track => track.stop())` event -/
  stops : List Nat
  /-- ghost: filenames of every triggered download -/
  downloads : List String
  deriving DecidableEq, Repr

/-- The component's initial state. -/
def initState : CState :=
  { stream := none
    isCameraActive := false
    message := "Click 'Start Camera' to begin."
    error := none
    videoSrc := none
    canvasW := 300
    canvasH := 150
    nextId := 0
    created := []
    stored := []
    stops := []
    downloads := [] }

/-- Platform outcome of one `startCamera` attempt: whether `getUserMedia`
resolves, whether `videoRef.current` is non-null, and whether `play()`
resolves rather than throwing. -/
structure StartEnv where
  granted : Bool
  videoPresent : Bool
  playOk : Bool
  deriving DecidableEq, Repr

/-- The error message set by `startCamera`'s catch block. -/
def camFailMsg : String :=
  "Camera access denied or unavailable. Please check permissions or try again."

/-- `startCamera`: requests a video stream; on grant attaches it to the
video element and plays it, then stores the handle and sets the active
flag; any rejection or throw lands in the catch block, which surfaces the
camera-failure error and clears the active flag (the `stream` state
variable is left untouched there). -/
def startCamera (e : StartEnv) (s : CState) : CState :=
  -- setError(null); setMessage("Attempting to access camera...")
  let s0 := { s with error := none, message := "Attempting to access camera..." }
  if e.granted then
    -- const newStream = await navigator.mediaDevices.getUserMedia({ video: true })
    let id := s0.nextId
    let s1 := { s0 with nextId := s0.nextId + 1, created := s0.created ++ [id] }
    if e.videoPresent then
      -- videoRef.current.srcObject = newStream; await videoRef.current.play()
      let s2 := { s1 with videoSrc := some id }
      if e.playOk then
        { s2 with stream := some id, stored := s2.stored ++ [id],
                  isCameraActive := true, message := "Camera active. Say cheese!" }
      else
        -- play() threw: caught below; newStream is never stored or stopped
        { s2 with error := some camFailMsg, message := "Camera failed to start.",
                  isCameraActive := false }
    else
      -- no video element: the guarded block is skipped, the stream is still stored
      { s1 with stream := some id, stored := s1.stored ++ [id],
                isCameraActive := true, message := "Camera active. Say cheese!" }
  else
    -- getUserMedia rejected (denied or no device)
    { s0 with error := some camFailMsg, message := "Camera failed to start.",
              isCameraActive := false }

/-- `stopCamera`: a no-op unless a stream is held; otherwise stops every
track, detaches the preview (when the video ref is present), releases the
handle and clears the active flag. -/
def stopCamera (videoPresent : Bool) (s : CState) : CState :=
  match s.stream with
  | none => s
  | some id =>
    let s1 := { s with stops := s.stops ++ [id] }
    let s2 := if videoPresent then { s1 with videoSrc := none } else s1
    { s2 with stream := none, isCameraActive := false,
              message := "Camera stopped. Click 'Start Camera' to restart.",
              error := none }

/-- Platform context of one `takeSnapshot` attempt: ref presence, the
video's natural dimensions, 2D-context availability, the current instant. -/
structure SnapEnv where
  videoPresent : Bool
  canvasPresent : Bool
  videoWidth : Nat
  videoHeight : Nat
  ctxOk : Bool
  now : DateTime
  deriving DecidableEq, Repr

/-- The captured image: what `canvas.toDataURL('image/jpeg', 0.9)` encodes,
with the canvas dimensions at draw time and the fixed quality 9/10. -/
structure Image where
  width : Nat
  height : Nat
  mime : String
  quality : ℚ
  deriving DecidableEq, Repr

/-- `takeSnapshot`: guards on the active flag and both refs, sizes the
canvas to the video's natural dimensions, guards against zero dimensions
and a missing 2D context, then draws the frame, encodes it as JPEG at
quality 0.9 and triggers the download. Returns the new state and the
produced image, if any. -/
def takeSnapshot (e : SnapEnv) (s : CState) : CState × Option Image :=
  if !s.isCameraActive || !e.videoPresent || !e.canvasPresent then
    ({ s with error := some "Camera is not active or references are missing." }, none)
  else
    -- canvas.width = video.videoWidth; canvas.height = video.videoHeight
    let s1 := { s with canvasW := e.videoWidth, canvasH := e.videoHeight }
    if s1.canvasW = 0 || s1.canvasH = 0 then
      ({ s1 with error := some "Video stream is not ready or has zero dimensions." }, none)
    else if !e.ctxOk then
      ({ s1 with error := some "Could not get 2D rendering context from canvas." }, none)
    else
      let img : Image :=
        { width := s1.canvasW, height := s1.canvasH, mime := "image/jpeg", quality := 9 / 10 }
      ({ s1 with downloads := s1.downloads ++ [downloadFilename e.now],
                 message := "Snapshot captured and downloaded successfully!" }, some img)

/-- Component teardown (`useEffect` cleanup on unmount): if a stream is
held, stop all of its tracks. -/
def teardown (s : CState) : CState :=
  match s.stream with
  | none => s
  | some id => { s with stops := s.stops ++ [id] }

/-- One user/lifecycle event on the controller. -/
inductive Ev where
  | start (e : StartEnv)
  | stop (videoPresent : Bool)
  | snap (e : SnapEnv)
  deriving DecidableEq, Repr

/-- Apply one event to the state. -/
def step (s : CState) : Ev → CState
  | .start e => startCamera e s
  | .stop vp => stopCamera vp s
  | .snap e => (takeSnapshot e s).1

/-- Run a sequence of events. -/
def run (s : CState) (tr : List Ev) : CState := tr.foldl step s

/-- Whether an event is a `startCamera` call. -/
def isStart : Ev → Bool
  | .start _ => true
  | _ => false

/-- The UI call discipline: the toggle button only offers `startCamera`
while the controller is inactive. -/
def disciplinedB : CState → List Ev → Bool
  | _, [] => true
  | s, e :: tr => (!isStart e || !s.isCameraActive) && disciplinedB (step s e) tr

/-- Whether a `startCamera` attempt ends in the success branch: the stream
is granted and, when a video element is attached, `play()` succeeds. -/
def startSucceeds (e : StartEnv) : Bool := e.granted && (!e.videoPresent || e.playOk)

/-- The spec-side activity predicate over a call sequence: active iff the
most recent `startCamera` succeeded and was not followed by a stop. -/
def specActive (a : Bool) : List Ev → Bool
  | [] => a
  | .start e :: tr => specActive (startSucceeds e) tr
  | .stop _ :: tr => specActive false tr
  | .snap _ :: tr => specActive a tr

/-- Configuration handed to the external `FileUploader` collaborator in the
integrated variant (its JSX props). -/
structure UploaderConfig where
  acceptedFileTypes : List String
  path : String
  maxFileCount : Nat
  isResumable : Bool
  accessLevel : String
  deriving DecidableEq, Repr

/-- The concrete `FileUploader` props. -/
def uploaderConfig : UploaderConfig :=
  { acceptedFileTypes := ["image/*"]
    path := "picture-submissions/"
    maxFileCount := 1
    isResumable := true
    accessLevel := "public" }

/-- The `onUploadSuccess` callback: surfaces the stored object's key in the
status message and clears the error. -/
def onUploadSuccess (key : String) (s : CState) : CState :=
  { s with
      message := "File \"" ++ key ++ "\" uploaded successfully to Amplify Storage!",
      error := none }

/-- The `onUploadError` callback: surfaces the failure. -/
def onUploadError (s : CState) : CState :=
  { s with error := some "File upload failed. Check the console for details." }

/-- `takeSnapshot` changes none of the session-related fields: the stream
handle, the active flag, the stop log, the stored log, the creation log and
the id supply are untouched on every path. -/
lemma takeSnapshot_session_fields (e : SnapEnv) (s : CState) :
    (takeSnapshot e s).1.stream = s.stream ∧
    (takeSnapshot e s).1.isCameraActive = s.isCameraActive ∧
    (takeSnapshot e s).1.stops = s.stops ∧
    (takeSnapshot e s).1.stored = s.stored ∧
    (takeSnapshot e s).1.created = s.created ∧
    (takeSnapshot e s).1.nextId = s.nextId := by
  simp only [takeSnapshot]
  split
  · exact ⟨rfl, rfl, rfl, rfl, rfl, rfl⟩
  · split
    · exact ⟨rfl, rfl, rfl, rfl, rfl, rfl⟩
    · split
      · exact ⟨rfl, rfl, rfl, rfl, rfl, rfl⟩
      · exact ⟨rfl, rfl, rfl, rfl, rfl, rfl⟩

/-- C7: takeSnapshot is pure with respect to the session: on every path
(success or failure) it does not stop the stream (no stop event is
logged), does not alter the stream handle, and leaves the active flag
unchanged. -/
theorem c7_snapshot_session_pure (e : SnapEnv) (s : CState) :
    (takeSnapshot e s).1.stream = s.stream ∧
    (takeSnapshot e s).1.isCameraActive = s.isCameraActive ∧
    (takeSnapshot e s).1.stops = s.stops := by
  obtain ⟨h1, h2, h3, -, -, -⟩ := takeSnapshot_session_fields e s
  exact ⟨h1, h2, h3⟩

/-- C9: the upload sink configures the external upload collaborator with
images-only accepted types, the fixed destination path prefix
`picture-submissions/`, at most one file, resumable transfer and public
access; its success callback surfaces the stored object's key and its
error callback surfaces the failure. -/
theorem c9_uploader_config (key : String) (s : CState) :
    uploaderConfig.acceptedFileTypes = ["image/*"] ∧
    uploaderConfig.path = "picture-submissions/" ∧
    uploaderConfig.maxFileCount = 1 ∧
    uploaderConfig.isResumable = true ∧
    uploaderConfig.accessLevel = "public" ∧
    (onUploadSuccess key s).message =
      "File \"" ++ key ++ "\" uploaded successfully to Amplify Storage!" ∧
    (onUploadSuccess key s).error = none ∧
    (onUploadError s).error = some "File upload failed. Check the console for details." :=
  ⟨rfl, rfl, rfl, rfl, rfl, rfl, rfl, rfl⟩

/-- C4: when `getUserMedia` is denied or no camera is available,
`startCamera` leaves the controller idle: the active flag is false, no
stream handle is stored, and the surfaced error begins with
"Camera access denied or unavailable". -/
theorem c4_start_failure_idle (e : StartEnv) (s : CState)
    (hs : s.stream = none) (hg : e.granted = false) :
    (startCamera e s).isCameraActive = false ∧
    (startCamera e s).stream = none ∧
    (startCamera e s).error = some camFailMsg ∧
    camFailMsg.data.take 35 = "Camera access denied or unavailable".data := by
  refine ⟨?_, ?_, ?_, by decide⟩ <;> simp [startCamera, hg, hs]

/-- Witness for C4 at the initial state and a denied permission. -/
theorem c4_start_failure_idle_witness :
    (startCamera ⟨false, true, true⟩ initState).isCameraActive = false ∧
    (startCamera ⟨false, true, true⟩ initState).stream = none ∧
    (startCamera ⟨false, true, true⟩ initState).error = some camFailMsg ∧
    camFailMsg.data.take 35 = "Camera access denied or unavailable".data :=
  c4_start_failure_idle ⟨false, true, true⟩ initState rfl rfl

/-- `stopCamera` is the identity when no stream is held. -/
lemma stopCamera_of_none (vp : Bool) (s : CState) (h : s.stream = none) :
    stopCamera vp s = s := by
  simp [stopCamera, h]

/-- C5: `stopCamera` with no held stream changes nothing (and raises no
error, as it returns a state rather than failing), and a second
`stopCamera` after any first one is a no-op. -/
theorem c5_stop_idempotent (s : CState) (vp vp' : Bool) :
    (s.stream = none → stopCamera vp s = s) ∧
    stopCamera vp' (stopCamera vp s) = stopCamera vp s := by
  refine ⟨stopCamera_of_none vp s, ?_⟩
  have hnone : (stopCamera vp s).stream = none := by
    cases h : s.stream with
    | none => rw [stopCamera_of_none vp s h]; exact h
    | some id => simp only [stopCamera, h]
  exact stopCamera_of_none vp' _ hnone

/-- Witness for C5 at the initial state. -/
theorem c5_stop_idempotent_witness :
    stopCamera true initState = initState ∧
    stopCamera true (stopCamera true initState) = stopCamera true initState :=
  ⟨(c5_stop_idempotent initState true true).1 rfl,
   (c5_stop_idempotent initState true true).2⟩

/-- C2: whenever the controller is inactive, or a ref is missing, or the
video's natural dimensions are zero, `takeSnapshot` fails: it sets one of
the two not-ready error messages, produces no image, and triggers no
download. -/
theorem c2_snapshot_not_ready (e : SnapEnv) (s : CState)
    (h : s.isCameraActive = false ∨ e.videoPresent = false ∨ e.canvasPresent = false ∨
         e.videoWidth = 0 ∨ e.videoHeight = 0) :
    (takeSnapshot e s).2 = none ∧
    (takeSnapshot e s).1.downloads = s.downloads ∧
    ((takeSnapshot e s).1.error = some "Camera is not active or references are missing." ∨
     (takeSnapshot e s).1.error = some "Video stream is not ready or has zero dimensions.") := by
  cases hA : s.isCameraActive with
  | false => simp [takeSnapshot, hA]
  | true =>
    cases hV : e.videoPresent with
    | false => simp [takeSnapshot, hA, hV]
    | true =>
      cases hC : e.canvasPresent with
      | false => simp [takeSnapshot, hA, hV, hC]
      | true =>
        simp only [hA, hV, hC] at h
        norm_num at h
        rcases h with h | h <;> simp [takeSnapshot, hA, hV, hC, h]

/-- Witness for C2: snapshot attempted in the initial (inactive) state. -/
theorem c2_snapshot_not_ready_witness :
    (takeSnapshot ⟨true, true, 640, 480, true, ⟨2024, 3, 7, 15, 42, 9, 123⟩⟩ initState).2 = none ∧
    (takeSnapshot ⟨true, true, 640, 480, true, ⟨2024, 3, 7, 15, 42, 9, 123⟩⟩ initState).1.downloads =
      initState.downloads ∧
    ((takeSnapshot ⟨true, true, 640, 480, true, ⟨2024, 3, 7, 15, 42, 9, 123⟩⟩ initState).1.error =
        some "Camera is not active or references are missing." ∨
     (takeSnapshot ⟨true, true, 640, 480, true, ⟨2024, 3, 7, 15, 42, 9, 123⟩⟩ initState).1.error =
        some "Video stream is not ready or has zero dimensions.") :=
  c2_snapshot_not_ready ⟨true, true, 640, 480, true, ⟨2024, 3, 7, 15, 42, 9, 123⟩⟩ initState
    (Or.inl rfl)

/-- C3: with an active session, both refs present, non-zero natural
dimensions W×H and an available 2D context, `takeSnapshot` sizes the
canvas to exactly W×H, encodes the drawn frame as a JPEG of the same
dimensions at fixed quality 9/10, and triggers the download. -/
theorem c3_snapshot_success (e : SnapEnv) (s : CState)
    (hA : s.isCameraActive = true) (hV : e.videoPresent = true) (hC : e.canvasPresent = true)
    (hW : 0 < e.videoWidth) (hH : 0 < e.videoHeight) (hX : e.ctxOk = true) :
    (takeSnapshot e s).2 =
      some { width := e.videoWidth, height := e.videoHeight,
             mime := "image/jpeg", quality := 9 / 10 } ∧
    (takeSnapshot e s).1.canvasW = e.videoWidth ∧
    (takeSnapshot e s).1.canvasH = e.videoHeight ∧
    (takeSnapshot e s).1.downloads = s.downloads ++ [downloadFilename e.now] := by
  have hW' : ¬ e.videoWidth = 0 := Nat.pos_iff_ne_zero.mp hW
  have hH' : ¬ e.videoHeight = 0 := Nat.pos_iff_ne_zero.mp hH
  simp [takeSnapshot, hA, hV, hC, hX, hW', hH']

/-- Witness for C3 in a started session with a 640×480 frame. -/
theorem c3_snapshot_success_witness :
    (takeSnapshot ⟨true, true, 640, 480, true, ⟨2024, 3, 7, 15, 42, 9, 123⟩⟩
        (startCamera ⟨true, true, true⟩ initState)).2 =
      some { width := 640, height := 480, mime := "image/jpeg", quality := 9 / 10 } ∧
    (takeSnapshot ⟨true, true, 640, 480, true, ⟨2024, 3, 7, 15, 42, 9, 123⟩⟩
        (startCamera ⟨true, true, true⟩ initState)).1.canvasW = 640 ∧
    (takeSnapshot ⟨true, true, 640, 480, true, ⟨2024, 3, 7, 15, 42, 9, 123⟩⟩
        (startCamera ⟨true, true, true⟩ initState)).1.canvasH = 480 ∧
    (takeSnapshot ⟨true, true, 640, 480, true, ⟨2024, 3, 7, 15, 42, 9, 123⟩⟩
        (startCamera ⟨true, true, true⟩ initState)).1.downloads =
      (startCamera ⟨true, true, true⟩ initState).downloads ++
        [downloadFilename ⟨2024, 3, 7, 15, 42, 9, 123⟩] :=
  c3_snapshot_success ⟨true, true, 640, 480, true, ⟨2024, 3, 7, 15, 42, 9, 123⟩⟩
    (startCamera ⟨true, true, true⟩ initState) rfl rfl rfl (by decide) (by decide) rfl

/-- C1 counterexample: after the call sequence "startCamera succeeds, then
startCamera is called again and the permission is denied", the active flag
is false while a stream handle is still held, refuting "active iff a
stream handle is held" for arbitrary call sequences: the failed second
attempt clears the flag but leaves the stored handle untouched. -/
theorem c1_active_stream_mismatch :
    (run initState [Ev.start ⟨true, true, true⟩, Ev.start ⟨false, true, true⟩]).isCameraActive
      = false ∧
    (run initState [Ev.start ⟨true, true, true⟩, Ev.start ⟨false, true, true⟩]).stream
      = some 0 := by
  constructor <;> rfl

/-- One step taken under the UI discipline preserves "active iff a handle
is held" and drives the active flag exactly as the spec-side activity
predicate prescribes. -/
lemma step_active (s : CState) (e : Ev)
    (hd : isStart e = true → s.isCameraActive = false)
    (hinv : s.isCameraActive = s.stream.isSome) :
    (step s e).isCameraActive = (step s e).stream.isSome ∧
    (step s e).isCameraActive =
      (match e with
       | .start e' => startSucceeds e'
       | .stop _ => false
       | .snap _ => s.isCameraActive) := by
  cases e with
  | start e' =>
    have ha : s.isCameraActive = false := hd rfl
    have hs : s.stream = none := by
      rw [ha] at hinv
      cases h : s.stream with
      | none => rfl
      | some id => rw [h] at hinv; simp at hinv
    cases hg : e'.granted <;> cases hv : e'.videoPresent <;> cases hp : e'.playOk <;>
      simp [step, startCamera, startSucceeds, hg, hv, hp, hs]
  | stop vp =>
    cases h : s.stream with
    | none => simp [step, stopCamera, h, hinv]
    | some id => simp [step, stopCamera, h]
  | snap e' =>
    obtain ⟨h1, h2, -, -, -, -⟩ := takeSnapshot_session_fields e' s
    constructor
    · show (takeSnapshot e' s).1.isCameraActive = (takeSnapshot e' s).1.stream.isSome
      rw [h2, h1]
      exact hinv
    · exact h2

/-- Over every disciplined event sequence, "active iff a handle is held"
is invariant, and the active flag follows the spec-side activity
predicate. -/
lemma run_inv (tr : List Ev) : ∀ s : CState, disciplinedB s tr = true →
    s.isCameraActive = s.stream.isSome →
    (run s tr).isCameraActive = (run s tr).stream.isSome ∧
    (run s tr).isCameraActive = specActive s.isCameraActive tr := by
  induction tr with
  | nil =>
    intro s _ h
    exact ⟨h, rfl⟩
  | cons e tr ih =>
    intro s hd hinv
    simp only [disciplinedB, Bool.and_eq_true] at hd
    obtain ⟨hd1, hd2⟩ := hd
    have hds : isStart e = true → s.isCameraActive = false := by
      intro hi
      simp [hi] at hd1
      exact hd1
    obtain ⟨hstep1, hstep2⟩ := step_active s e hds hinv
    have hspec : specActive s.isCameraActive (e :: tr) =
        specActive (step s e).isCameraActive tr := by
      cases e <;> simp only [specActive] <;> rw [hstep2]
    obtain ⟨g1, g2⟩ := ih (step s e) hd2 hstep1
    exact ⟨g1, by rw [hspec]; exact g2⟩

/-- C1 (amended): for every event sequence in which `startCamera` is only
invoked while the controller is inactive — the discipline the UI's single
toggle button enforces — the active flag is true iff a stream handle is
held (the `Option`-valued handle field makes more than one held stream
impossible), and it equals exactly whether the most recent `startCamera`
succeeded and was not followed by a `stopCamera`. -/
theorem c1_active_iff_stream_held (tr : List Ev)
    (h : disciplinedB initState tr = true) :
    ((run initState tr).isCameraActive = true ↔ (run initState tr).stream ≠ none) ∧
    (run initState tr).isCameraActive = specActive false tr := by
  obtain ⟨g1, g2⟩ := run_inv tr initState h rfl
  refine ⟨?_, g2⟩
  rw [g1]
  cases (run initState tr).stream <;> simp

/-- Witness for C1 on the one-event sequence "startCamera succeeds". -/
theorem c1_active_iff_stream_held_witness :
    disciplinedB initState [Ev.start ⟨true, true, true⟩] = true ∧
    (((run initState [Ev.start ⟨true, true, true⟩]).isCameraActive = true ↔
        (run initState [Ev.start ⟨true, true, true⟩]).stream ≠ none) ∧
      (run initState [Ev.start ⟨true, true, true⟩]).isCameraActive =
        specActive false [Ev.start ⟨true, true, true⟩]) :=
  ⟨rfl, c1_active_iff_stream_held [Ev.start ⟨true, true, true⟩] rfl⟩

/-- Every `startCamera` attempt ends either in the success branch (stream
granted and, if a video element is attached, playback succeeded) or in the
catch block. -/
lemma start_dichotomy (e : StartEnv) :
    (e.granted = true ∧ (e.videoPresent = false ∨ e.playOk = true)) ∨
    (e.granted = false ∨ (e.videoPresent = true ∧ e.playOk = false)) := by
  cases hg : e.granted
  · exact Or.inr (Or.inl rfl)
  · cases hv : e.videoPresent
    · exact Or.inl ⟨rfl, Or.inl rfl⟩
    · cases hp : e.playOk
      · exact Or.inr (Or.inr ⟨rfl, rfl⟩)
      · exact Or.inl ⟨rfl, Or.inr rfl⟩

/-- Field values after a successful `startCamera`: the fresh stream is
stored and held, the active flag is set, no track is stopped, and the id
supply advances. -/
lemma startCamera_success_fields (e : StartEnv) (s : CState)
    (hg : e.granted = true) (hok : e.videoPresent = false ∨ e.playOk = true) :
    (startCamera e s).stream = some s.nextId ∧
    (startCamera e s).isCameraActive = true ∧
    (startCamera e s).stops = s.stops ∧
    (startCamera e s).stored = s.stored ++ [s.nextId] ∧
    (startCamera e s).nextId = s.nextId + 1 := by
  rcases hok with hv | hp
  · simp [startCamera, hg, hv]
  · cases hv : e.videoPresent <;> simp [startCamera, hg, hv, hp]

/-- Field values after a failed `startCamera` (denied, or `play()` threw):
the held handle, the stored log and the stop log are untouched, the active
flag is cleared, the id supply does not shrink, and the camera-failure
error is surfaced. -/
lemma startCamera_failure_fields (e : StartEnv) (s : CState)
    (hfail : e.granted = false ∨ (e.videoPresent = true ∧ e.playOk = false)) :
    (startCamera e s).stream = s.stream ∧
    (startCamera e s).isCameraActive = false ∧
    (startCamera e s).stops = s.stops ∧
    (startCamera e s).stored = s.stored ∧
    s.nextId ≤ (startCamera e s).nextId ∧
    (startCamera e s).error = some camFailMsg := by
  rcases hfail with hg | ⟨hv, hp⟩
  · simp [startCamera, hg]
  · cases hg : e.granted <;> simp [startCamera, hg, hv, hp]

/-- Field values after `stopCamera` on a held stream: one stop event for
it is logged, the handle is released and the active flag cleared. -/
lemma stopCamera_fields (vp : Bool) (s : CState) (i : Nat) (h : s.stream = some i) :
    (stopCamera vp s).stream = none ∧
    (stopCamera vp s).isCameraActive = false ∧
    (stopCamera vp s).stops = s.stops ++ [i] ∧
    (stopCamera vp s).stored = s.stored ∧
    (stopCamera vp s).nextId = s.nextId := by
  simp only [stopCamera, h]
  cases vp <;> simp

/-- Release-exactly-once invariant: "active iff held"; stored, stopped and
held ids are below the fresh-id supply; a held id was stored; and each
stored id has exactly one stop event logged unless it is still held, in
which case it has none. -/
def releasedInv (s : CState) : Prop :=
  s.isCameraActive = s.stream.isSome ∧
  (∀ id ∈ s.stored, id < s.nextId) ∧
  (∀ id ∈ s.stops, id < s.nextId) ∧
  (∀ id, s.stream = some id → id < s.nextId ∧ id ∈ s.stored) ∧
  (∀ id ∈ s.stored,
    (s.stream = some id → s.stops.count id = 0) ∧
    (¬ s.stream = some id → s.stops.count id = 1))

/-- `releasedInv` transfers to any state that stores the fresh stream on
top of an idle source state. -/
lemma releasedInv_store (s t : CState)
    (h : releasedInv s) (hs : s.stream = none)
    (f1 : t.stream = some s.nextId) (f2 : t.isCameraActive = true)
    (f3 : t.stops = s.stops) (f4 : t.stored = s.stored ++ [s.nextId])
    (f5 : t.nextId = s.nextId + 1) : releasedInv t := by
  obtain ⟨h1, h2, h3, h4, h5⟩ := h
  refine ⟨by simp [f2, f1], ?_, ?_, ?_, ?_⟩
  · intro id hid
    rw [f4] at hid
    rw [f5]
    rcases List.mem_append.mp hid with hm | hm
    · exact Nat.lt_succ_of_lt (h2 id hm)
    · rw [List.mem_singleton.mp hm]
      exact Nat.lt_succ_self _
  · intro id hid
    rw [f3] at hid
    rw [f5]
    exact Nat.lt_succ_of_lt (h3 id hid)
  · intro id hid
    rw [f1] at hid
    have hide : id = s.nextId := (Option.some.inj hid).symm
    subst hide
    refine ⟨by rw [f5]; exact Nat.lt_succ_self _, by rw [f4]; simp⟩
  · intro id hid
    rw [f4] at hid
    rcases List.mem_append.mp hid with hm | hm
    · have hlt : id < s.nextId := h2 id hm
      have hne : ¬ t.stream = some id := by
        rw [f1]
        intro hcc
        have := Option.some.inj hcc
        omega
      refine ⟨fun hcc => absurd hcc hne, fun _ => ?_⟩
      rw [f3]
      exact (h5 id hm).2 (by rw [hs]; simp)
    · have hide : id = s.nextId := List.mem_singleton.mp hm
      subst hide
      refine ⟨fun _ => ?_, fun hcc => absurd f1 hcc⟩
      rw [f3]
      exact List.count_eq_zero.mpr (fun hmem => absurd (h3 _ hmem) (lt_irrefl _))

/-- `releasedInv` transfers to any state reached from an idle source state
by a failing `startCamera`: nothing held, nothing newly stored or
stopped. -/
lemma releasedInv_fail (s t : CState)
    (h : releasedInv s) (hs : s.stream = none)
    (f1 : t.stream = none) (f2 : t.isCameraActive = false)
    (f3 : t.stops = s.stops) (f4 : t.stored = s.stored)
    (f5 : s.nextId ≤ t.nextId) : releasedInv t := by
  obtain ⟨h1, h2, h3, h4, h5⟩ := h
  refine ⟨by simp [f2, f1], ?_, ?_, ?_, ?_⟩
  · intro id hid
    rw [f4] at hid
    exact lt_of_lt_of_le (h2 id hid) f5
  · intro id hid
    rw [f3] at hid
    exact lt_of_lt_of_le (h3 id hid) f5
  · intro id hid
    rw [f1] at hid
    cases hid
  · intro id hid
    rw [f4] at hid
    refine ⟨fun hcc => ?_, fun _ => ?_⟩
    · rw [f1] at hcc
      cases hcc
    · rw [f3]
      exact (h5 id hid).2 (by rw [hs]; simp)

/-- `releasedInv` transfers across a release of the held stream: the
released id picks up its single stop event, every other stored id keeps
its one. -/
lemma releasedInv_release (s t : CState) (i : Nat)
    (h : releasedInv s) (hst : s.stream = some i)
    (f1 : t.stream = none) (f2 : t.isCameraActive = false)
    (f3 : t.stops = s.stops ++ [i]) (f4 : t.stored = s.stored)
    (f5 : t.nextId = s.nextId) : releasedInv t := by
  obtain ⟨h1, h2, h3, h4, h5⟩ := h
  obtain ⟨hi_lt, hi_mem⟩ := h4 i hst
  refine ⟨by simp [f2, f1], ?_, ?_, ?_, ?_⟩
  · intro id hid
    rw [f4] at hid
    rw [f5]
    exact h2 id hid
  · intro id hid
    rw [f3] at hid
    rw [f5]
    rcases List.mem_append.mp hid with hm | hm
    · exact h3 id hm
    · rw [List.mem_singleton.mp hm]
      exact hi_lt
  · intro id hid
    rw [f1] at hid
    cases hid
  · intro id hid
    rw [f4] at hid
    refine ⟨fun hcc => ?_, fun _ => ?_⟩
    · rw [f1] at hcc
      cases hcc
    · rw [f3, List.count_append]
      by_cases hii : id = i
      · subst hii
        rw [(h5 id hid).1 hst]
        simp
      · rw [(h5 id hid).2 (by rw [hst]; exact fun hc => hii (Option.some.inj hc).symm)]
        rw [List.count_eq_zero.mpr (by simp [hii])]

/-- One disciplined step preserves the release-exactly-once invariant. -/
lemma step_releasedInv (s : CState) (e : Ev)
    (hd : isStart e = true → s.isCameraActive = false)
    (h : releasedInv s) : releasedInv (step s e) := by
  cases e with
  | start e' =>
    have ha : s.isCameraActive = false := hd rfl
    have hs : s.stream = none := by
      obtain ⟨h1, -, -, -, -⟩ := h
      rw [ha] at h1
      cases hst : s.stream with
      | none => rfl
      | some id => rw [hst] at h1; simp at h1
    rcases start_dichotomy e' with ⟨hg, hok⟩ | hfail
    · obtain ⟨f1, f2, f3, f4, f5⟩ := startCamera_success_fields e' s hg hok
      exact releasedInv_store s _ h hs f1 f2 f3 f4 f5
    · obtain ⟨f1, f2, f3, f4, f5, -⟩ := startCamera_failure_fields e' s hfail
      exact releasedInv_fail s _ h hs (f1.trans hs) f2 f3 f4 f5
  | stop vp =>
    cases hst : s.stream with
    | none =>
      have heq : step s (.stop vp) = s := stopCamera_of_none vp s hst
      rw [heq]
      exact h
    | some i =>
      obtain ⟨f1, f2, f3, f4, f5⟩ := stopCamera_fields vp s i hst
      exact releasedInv_release s _ i h hst f1 f2 f3 f4 f5
  | snap e' =>
    obtain ⟨g1, g2, g3, g4, -, g6⟩ := takeSnapshot_session_fields e' s
    show releasedInv ((takeSnapshot e' s).1)
    have hE : releasedInv ((takeSnapshot e' s).1) = releasedInv s := by
      unfold releasedInv
      rw [g1, g2, g3, g4, g6]
    rw [hE]
    exact h

/-- Over every disciplined event sequence the release-exactly-once
invariant is preserved. -/
lemma run_releasedInv (tr : List Ev) : ∀ s : CState, disciplinedB s tr = true →
    releasedInv s → releasedInv (run s tr) := by
  induction tr with
  | nil =>
    intro s _ h
    exact h
  | cons e tr ih =>
    intro s hd hinv
    simp only [disciplinedB, Bool.and_eq_true] at hd
    obtain ⟨hd1, hd2⟩ := hd
    have hds : isStart e = true → s.isCameraActive = false := by
      intro hi
      simp [hi] at hd1
      exact hd1
    exact ih (step s e) hd2 (step_releasedInv s e hds hinv)

/-- The initial state satisfies the release-exactly-once invariant. -/
lemma releasedInv_init : releasedInv initState := by
  refine ⟨rfl, ?_, ?_, ?_, ?_⟩ <;> intro id hid <;> simp [initState] at hid

/-- C6: along every disciplined call sequence followed by controller
teardown, each stream that was ever stored as a session has exactly one
"stop all tracks" event logged for it — released exactly once by either
the explicit `stopCamera` or the teardown, and by teardown alone when
`stopCamera` was never called (the model's per-event stop log makes a
double release visible as a count above one). -/
theorem c6_stream_released_once (tr : List Ev)
    (h : disciplinedB initState tr = true) :
    ∀ id ∈ (teardown (run initState tr)).stored,
      (teardown (run initState tr)).stops.count id = 1 := by
  have hinv : releasedInv (run initState tr) :=
    run_releasedInv tr initState h releasedInv_init
  obtain ⟨h1, h2, h3, h4, h5⟩ := hinv
  intro id hid
  cases hst : (run initState tr).stream with
  | none =>
    have ht : teardown (run initState tr) = run initState tr := by
      simp [teardown, hst]
    rw [ht] at hid ⊢
    exact (h5 id hid).2 (by rw [hst]; simp)
  | some i =>
    have ht1 : (teardown (run initState tr)).stops = (run initState tr).stops ++ [i] := by
      simp [teardown, hst]
    have ht2 : (teardown (run initState tr)).stored = (run initState tr).stored := by
      simp [teardown, hst]
    rw [ht2] at hid
    rw [ht1, List.count_append]
    by_cases hii : id = i
    · subst hii
      rw [(h5 id hid).1 hst]
      simp
    · rw [(h5 id hid).2 (by rw [hst]; exact fun hc => hii (Option.some.inj hc).symm)]
      rw [List.count_eq_zero.mpr (by simp [hii])]

/-- Witness for C6: one session started and stopped, then teardown; the
stream with id 0 is stopped exactly once. -/
theorem c6_stream_released_once_witness :
    (teardown (run initState [Ev.start ⟨true, true, true⟩, Ev.stop true])).stops.count 0 = 1 :=
  c6_stream_released_once [Ev.start ⟨true, true, true⟩, Ev.stop true] rfl 0 (by decide)

/-- A stream id that was never stopped, is not the held stream, and is
below the id supply stays that way across any single event: no operation
can ever reach it again. -/
lemma step_leak (id : Nat) (s : CState) (e : Ev)
    (h1 : id ∉ s.stops) (h2 : ¬ s.stream = some id) (h3 : id < s.nextId) :
    id ∉ (step s e).stops ∧ ¬ (step s e).stream = some id ∧ id < (step s e).nextId := by
  cases e with
  | start e' =>
    simp only [step]
    rcases start_dichotomy e' with ⟨hg, hok⟩ | hfail
    · obtain ⟨f1, -, f3, -, f5⟩ := startCamera_success_fields e' s hg hok
      refine ⟨by rw [f3]; exact h1, ?_, by rw [f5]; omega⟩
      rw [f1]
      intro hc
      have := Option.some.inj hc
      omega
    · obtain ⟨f1, -, f3, -, f5, -⟩ := startCamera_failure_fields e' s hfail
      exact ⟨by rw [f3]; exact h1, by rw [f1]; exact h2, lt_of_lt_of_le h3 f5⟩
  | stop vp =>
    simp only [step]
    cases hst : s.stream with
    | none =>
      rw [stopCamera_of_none vp s hst]
      exact ⟨h1, h2, h3⟩
    | some i =>
      obtain ⟨f1, -, f3, -, f5⟩ := stopCamera_fields vp s i hst
      refine ⟨?_, by rw [f1]; simp, by rw [f5]; exact h3⟩
      rw [f3]
      intro hmem
      rcases List.mem_append.mp hmem with hm | hm
      · exact h1 hm
      · rw [List.mem_singleton.mp hm] at h2
        exact h2 hst
  | snap e' =>
    simp only [step]
    obtain ⟨g1, -, g3, -, -, g6⟩ := takeSnapshot_session_fields e' s
    exact ⟨by rw [g3]; exact h1, by rw [g1]; exact h2, by rw [g6]; exact h3⟩

/-- `step_leak` extended over a whole event sequence. -/
lemma run_leak (id : Nat) (tr : List Ev) : ∀ s : CState,
    id ∉ s.stops → ¬ s.stream = some id → id < s.nextId →
    id ∉ (run s tr).stops ∧ ¬ (run s tr).stream = some id ∧ id < (run s tr).nextId := by
  induction tr with
  | nil =>
    intro s h1 h2 h3
    exact ⟨h1, h2, h3⟩
  | cons e tr ih =>
    intro s h1 h2 h3
    obtain ⟨g1, g2, g3⟩ := step_leak id s e h1 h2 h3
    exact ih (step s e) g1 g2 g3

/-- Teardown cannot stop a stream that is neither held nor already in the
stop log. -/
lemma teardown_leak (id : Nat) (s : CState)
    (h1 : id ∉ s.stops) (h2 : ¬ s.stream = some id) :
    id ∉ (teardown s).stops := by
  cases hst : s.stream with
  | none =>
    simp [teardown, hst]
    exact h1
  | some i =>
    rw [hst] at h2
    simp [teardown, hst]
    exact ⟨h1, fun hc => h2 (congrArg some hc).symm⟩

/-- C10: when the platform grants the stream but `play()` then throws,
`startCamera`'s catch path leaves the active flag false and surfaces the
camera-failure message, yet the already-created stream (id 0 from the
initial state) was never stored: it is absent from the stored log, and no
later event sequence — `stopCamera`, snapshots, more `startCamera` calls —
nor the final teardown ever logs a stop for it. Its tracks are never
stopped: the stream leaks. -/
theorem c10_play_failure_leak (tr : List Ev) :
    (startCamera ⟨true, true, false⟩ initState).isCameraActive = false ∧
    (startCamera ⟨true, true, false⟩ initState).error = some camFailMsg ∧
    (startCamera ⟨true, true, false⟩ initState).stream = none ∧
    0 ∈ (startCamera ⟨true, true, false⟩ initState).created ∧
    (startCamera ⟨true, true, false⟩ initState).stored = [] ∧
    0 ∉ (teardown (run (startCamera ⟨true, true, false⟩ initState) tr)).stops := by
  refine ⟨rfl, rfl, rfl, by decide, rfl, ?_⟩
  obtain ⟨g1, g2, -⟩ :=
    run_leak 0 tr (startCamera ⟨true, true, false⟩ initState) (by decide) (by decide) (by decide)
  exact teardown_leak 0 _ g1 g2

/-- `digitChar` always yields a decimal digit character. -/
lemma digitChar_isDigit (n : Nat) : (digitChar n).isDigit = true := by
  unfold digitChar
  generalize n % 10 = k
  rcases k with _ | _ | _ | _ | _ | _ | _ | _ | _ | _ | k <;> rfl

/-- A digit character never equals a non-digit character. -/
lemma digitChar_ne (n : Nat) (c : Char) (hc : c.isDigit = false) : ¬ digitChar n = c := by
  intro h
  have hd := digitChar_isDigit n
  rw [h, hc] at hd
  cases hd

/-- A digit character is never the `T` date/time separator. -/
lemma digitChar_ne_T (n : Nat) : ¬ digitChar n = 'T' := digitChar_ne n 'T' rfl

/-- A digit character is never a colon. -/
lemma digitChar_ne_colon (n : Nat) : ¬ digitChar n = ':' := digitChar_ne n ':' rfl

/-- The first ten characters of the ISO string: the date `YYYY-MM-DD`. -/
lemma isoSlice10_data (t : DateTime) : (jsSlice (toISOString t) 0 10).data =
    [digitChar (t.year / 1000), digitChar (t.year / 100), digitChar (t.year / 10), digitChar t.year,
     '-', digitChar (t.month / 10), digitChar t.month,
     '-', digitChar (t.day / 10), digitChar t.day] := rfl

/-- The first nineteen characters of the ISO string:
`YYYY-MM-DDTHH:MM:SS`. -/
lemma isoSlice19_data (t : DateTime) : (jsSlice (toISOString t) 0 19).data =
    [digitChar (t.year / 1000), digitChar (t.year / 100), digitChar (t.year / 10), digitChar t.year,
     '-', digitChar (t.month / 10), digitChar t.month,
     '-', digitChar (t.day / 10), digitChar t.day,
     'T', digitChar (t.hour / 10), digitChar t.hour,
     ':', digitChar (t.minute / 10), digitChar t.minute,
     ':', digitChar (t.second / 10), digitChar t.second] := rfl

/-- The integrated variant's transformed slice: the `T` becomes `_` and
both colons become dashes, yielding `YYYY-MM-DD_HH-MM-SS`. -/
lemma replaced19 (t : DateTime) :
    replaceAll ':' '-' (replaceFirst 'T' '_' (jsSlice (toISOString t) 0 19).data) =
    [digitChar (t.year / 1000), digitChar (t.year / 100), digitChar (t.year / 10), digitChar t.year,
     '-', digitChar (t.month / 10), digitChar t.month,
     '-', digitChar (t.day / 10), digitChar t.day,
     '_', digitChar (t.hour / 10), digitChar t.hour,
     '-', digitChar (t.minute / 10), digitChar t.minute,
     '-', digitChar (t.second / 10), digitChar t.second] := by
  rw [isoSlice19_data]
  simp [replaceFirst, replaceAll, digitChar_ne_T, digitChar_ne_colon]

/-- Characters that are digits or safe separators are not colons. -/
lemma ne_colon_of_safe (c : Char) (h : c.isDigit = true ∨ c = '-' ∨ c = '_') :
    ¬ c = ':' := by
  rcases h with h | rfl | rfl
  · intro hc
    subst hc
    exact absurd h (by decide)
  · decide
  · decide

/-- C8: for a fixed instant both `downloadImage` filenames (the pure
functions of the instant modelled here, hence deterministic) contain no
`:` character and match the pattern `snapshot-<date-or-datetime>.jpg`,
where the middle part consists only of digits and the safe separators
`-` (and `_` in the integrated variant). -/
theorem c8_filename_safe (t : DateTime) :
    (∀ c ∈ (downloadFilename t).data, ¬ c = ':') ∧
    (∃ mid : String, downloadFilename t = "snapshot-" ++ mid ++ ".jpg" ∧
      ∀ c ∈ mid.data, c.isDigit = true ∨ c = '-') ∧
    (∀ c ∈ (downloadFilenameIntegrated t).data, ¬ c = ':') ∧
    (∃ mid : String, downloadFilenameIntegrated t = "snapshot-" ++ mid ++ ".jpg" ∧
      ∀ c ∈ mid.data, c.isDigit = true ∨ c = '-' ∨ c = '_') := by
  have hmid10 : ∀ c ∈ (jsSlice (toISOString t) 0 10).data, c.isDigit = true ∨ c = '-' := by
    rw [isoSlice10_data]
    intro c hc
    simp at hc
    rcases hc with rfl | rfl | rfl | rfl | rfl | rfl | rfl | rfl | rfl | rfl <;>
      first
      | exact Or.inl (digitChar_isDigit _)
      | exact Or.inr rfl
  have hmid19 : ∀ c ∈ replaceAll ':' '-' (replaceFirst 'T' '_' (jsSlice (toISOString t) 0 19).data),
      c.isDigit = true ∨ c = '-' ∨ c = '_' := by
    rw [replaced19]
    intro c hc
    simp at hc
    rcases hc with rfl | rfl | rfl | rfl | rfl | rfl | rfl | rfl | rfl | rfl | rfl | rfl | rfl |
      rfl | rfl | rfl | rfl | rfl | rfl <;>
      first
      | exact Or.inl (digitChar_isDigit _)
      | exact Or.inr (Or.inl rfl)
      | exact Or.inr (Or.inr rfl)
  have hlit1 : ∀ c ∈ "snapshot-".data, ¬ c = ':' := by decide
  have hlit2 : ∀ c ∈ ".jpg".data, ¬ c = ':' := by decide
  refine ⟨?_, ⟨jsSlice (toISOString t) 0 10, rfl, hmid10⟩, ?_,
    ⟨⟨replaceAll ':' '-' (replaceFirst 'T' '_' (jsSlice (toISOString t) 0 19).data)⟩, rfl,
      hmid19⟩⟩
  · intro c hc
    unfold downloadFilename at hc
    rw [String.data_append, String.data_append] at hc
    rcases List.mem_append.mp hc with hc2 | hc2
    · rcases List.mem_append.mp hc2 with hc3 | hc3
      · exact hlit1 c hc3
      · exact ne_colon_of_safe c ((hmid10 c hc3).imp_right Or.inl)
    · exact hlit2 c hc2
  · intro c hc
    unfold downloadFilenameIntegrated at hc
    rw [String.data_append, String.data_append] at hc
    rcases List.mem_append.mp hc with hc2 | hc2
    · rcases List.mem_append.mp hc2 with hc3 | hc3
      · exact hlit1 c hc3
      · exact ne_colon_of_safe c (hmid19 c hc3)
    · exact hlit2 c hc2
